import Mathlib

/-!
Shallow embedding of `src/robot_programming/multi_robot_collision_avoidance.py`
(class `MultiRobotCollisionAvoidance`) and proofs about it.

Modelling conventions:
* Python floats become `ℚ` (all constants in the source are decimal literals,
  so the arithmetic is exact over `ℚ`).
* Robot ids (Python strings used as dict keys) become `ℕ`; the registry dict
  `self.robots` becomes an association list `List Robot` in insertion order,
  matching Python dict semantics (insertion-ordered, overwrite keeps position).
* Wall-clock reads (`time.time()`) become an explicit parameter `now : ℚ`;
  fields that only hold wall-clock identifiers (`event_id`, `path_id`,
  `timestamp`) are dropped, as are the simulated random fields
  (`time_to_collision`, `collision_point`) that no claim mentions.
* `async` methods have no real concurrency inside one tick; a tick is a pure
  state transformer.
-/

/-- `RobotBrand` enum from the source. -/
inductive RobotBrand where
  | YASKAWA
  | ABB
  | UNKNOWN
deriving DecidableEq, Repr

/-- `CollisionZone` enum from the source. -/
inductive CollisionZone where
  | SAFE
  | WARNING
  | DANGER
  | CRITICAL
  | BLOCKED
deriving DecidableEq, Repr

/-- `RobotStatus` enum from the source. -/
inductive RobotStatus where
  | IDLE
  | MOVING
  | WAITING
  | EMERGENCY_STOP
  | ERROR
  | COORDINATED
deriving DecidableEq, Repr

/-- `RobotPosition` dataclass (timestamp dropped, see module comment). -/
structure RobotPosition where
  x : ℚ
  y : ℚ
  z : ℚ
  rx : ℚ
  ry : ℚ
  rz : ℚ
deriving DecidableEq, Repr

/-- `PathPoint` dataclass. -/
structure PathPoint where
  position : RobotPosition
  velocity : ℚ
  acceleration : ℚ
  time_from_start : ℚ
  collision_risk : ℚ
deriving DecidableEq, Repr

/-- `RobotPath` dataclass (`path_id` dropped, see module comment). -/
structure RobotPath where
  robot_id : ℕ
  points : List PathPoint
  total_duration : ℚ
  priority : ℕ
  is_active : Bool
  start_time : ℚ
deriving DecidableEq, Repr

/-- `CollisionEvent` dataclass (only the fields the claims are about:
`event_id`, `timestamp`, `collision_point`, `time_to_collision` dropped). -/
structure CollisionEvent where
  robot1_id : ℕ
  robot2_id : ℕ
  severity : CollisionZone
  avoidance_action : String
deriving DecidableEq, Repr

/-- One entry of the registry: the `robot_info` dict built by `register_robot`
merged with the parallel dicts `self.robot_positions` (same keys, written
together at registration) and `self.robot_paths`. -/
structure Robot where
  id : ℕ
  brand : RobotBrand
  status : RobotStatus
  reach_radius : ℚ
  pos : RobotPosition
  path : Option RobotPath
deriving DecidableEq, Repr

/-- `self.safety_margin = 200  # mm` -/
def safety_margin : ℚ := 200

/-- `_calculate_reach_radius`: brand lookup table with 1200 default. -/
def calculate_reach_radius (brand : RobotBrand) : ℚ :=
  match brand with
  | .YASKAWA => 1500
  | .ABB => 1600
  | .UNKNOWN => 1200

/-- Lines 372-377 of `_check_robot_collision` as a function of the already
computed Euclidean `distance` and of `combined_reach`:
`if distance <= combined_reach: 1 - (distance/combined_reach)**2 else 0`. -/
def collision_risk (distance combined_reach : ℚ) : ℚ :=
  if distance ≤ combined_reach then 1 - (distance / combined_reach) ^ 2 else 0

/-- `combined_reach = reach1 + reach2 + self.safety_margin` where the reach
radii were stored at registration from `_calculate_reach_radius`. -/
def combined_reach (b1 b2 : RobotBrand) : ℚ :=
  calculate_reach_radius b1 + calculate_reach_radius b2 + safety_margin

/-- `_check_robot_collision` on two registry entries.  The source computes
`distance = sqrt(dx^2+dy^2+dz^2)` and then uses it only through
`distance <= combined_reach` and `(distance/combined_reach)**2`; since both
sides are nonnegative, `distance <= c ↔ distance^2 <= c^2` and
`(distance/c)^2 = distance^2/c^2`, so the function is expressed exactly via
the squared distance, keeping it executable over `ℚ` (no square root). -/
def check_robot_collision (r1 r2 : Robot) : ℚ :=
  let dsq := (r1.pos.x - r2.pos.x) ^ 2 + (r1.pos.y - r2.pos.y) ^ 2 +
    (r1.pos.z - r2.pos.z) ^ 2
  let combined := r1.reach_radius + r2.reach_radius + safety_margin
  if dsq ≤ combined ^ 2 then 1 - dsq / combined ^ 2 else 0

/-- `_classify_collision_zone`: risk ≥ 0.8 → CRITICAL; ≥ 0.5 → DANGER;
≥ 0.2 → WARNING; else SAFE. -/
def classify_collision_zone (risk : ℚ) : CollisionZone :=
  if risk ≥ 8/10 then .CRITICAL
  else if risk ≥ 5/10 then .DANGER
  else if risk ≥ 2/10 then .WARNING
  else .SAFE

/-- Write `self.robots[robot_id]['status'] = st` on the registry list. -/
def set_status (robots : List Robot) (rid : ℕ) (st : RobotStatus) : List Robot :=
  robots.map (fun r => if r.id = rid then { r with status := st } else r)

/-- `_emergency_stop_robot`: status := EMERGENCY_STOP. -/
def emergency_stop_robot (robots : List Robot) (rid : ℕ) : List Robot :=
  set_status robots rid .EMERGENCY_STOP

/-- `_stop_robot`: status := WAITING. -/
def stop_robot (robots : List Robot) (rid : ℕ) : List Robot :=
  set_status robots rid .WAITING

/-- `self.robots.find` by id (Python dict indexing). -/
def find_robot (robots : List Robot) (rid : ℕ) : Option Robot :=
  robots.find? (fun r => r.id = rid)

/-- `_get_robot_priority`: YASKAWA → 2, ABB → 1, else 0.  Python raises
`KeyError` for an unregistered id; every caller in the source passes ids taken
from the registry, so the `none` branch (defaulted to 0 here) is dead code. -/
def get_robot_priority (robots : List Robot) (rid : ℕ) : ℕ :=
  match find_robot robots rid with
  | some r =>
    match r.brand with
    | .YASKAWA => 2
    | .ABB => 1
    | .UNKNOWN => 0
  | none => 0

/-- `_execute_collision_avoidance`: CRITICAL stops both (EMERGENCY_STOP);
DANGER stops the lower-priority robot, and robot1 when priorities are equal
(`if priority1 > priority2: stop robot2 else: stop robot1`); WARNING reduces
speed (no modeled state change); otherwise monitor.  Returns the new registry
and the `avoidance_action` string. -/
def execute_collision_avoidance (robots : List Robot) (ev : CollisionEvent) :
    List Robot × String :=
  match ev.severity with
  | .CRITICAL =>
    (emergency_stop_robot (emergency_stop_robot robots ev.robot1_id)
      ev.robot2_id, "emergency_stop_both")
  | .DANGER =>
    let priority1 := get_robot_priority robots ev.robot1_id
    let priority2 := get_robot_priority robots ev.robot2_id
    if priority1 > priority2 then
      (stop_robot robots ev.robot2_id, "stop_" ++ toString ev.robot2_id)
    else
      (stop_robot robots ev.robot1_id, "stop_" ++ toString ev.robot1_id)
  | .WARNING => (robots, "slow_down_both")
  | _ => (robots, "monitor")

/-- `_handle_collision_risk`: build the `CollisionEvent` (severity from
`_classify_collision_zone`), run the avoidance strategy, record the action. -/
def handle_collision_risk (robots : List Robot) (r1id r2id : ℕ) (risk : ℚ) :
    List Robot × CollisionEvent :=
  let ev : CollisionEvent :=
    { robot1_id := r1id, robot2_id := r2id
      severity := classify_collision_zone risk, avoidance_action := "" }
  let res := execute_collision_avoidance robots ev
  (res.1, { ev with avoidance_action := res.2 })

/-- The pair enumeration of `_collision_detection_loop`:
`for i in range(n): for j in range(i+1, n)` over the registry's key list, so
every unordered pair appears once, first element before second in
registration (dict insertion) order. -/
def robot_pairs : List Robot → List (Robot × Robot)
  | [] => []
  | r :: rs => rs.map (fun s => (r, s)) ++ robot_pairs rs

/-- One pass over the pair list in the body of `_collision_detection_loop`:
compute each pair's risk and, when `risk > 0.1`, handle it (emitting the
event and executing avoidance).  Positions and brands are read from the pair
snapshot, as the loop reads `self.robot_positions` which the tick never
writes; statuses evolve through the fold. -/
def run_collision_checks :
    List Robot → List (Robot × Robot) → List Robot × List CollisionEvent
  | robots, [] => (robots, [])
  | robots, (a, b) :: rest =>
    let risk := check_robot_collision a b
    if risk > 1/10 then
      let hr := handle_collision_risk robots a.id b.id risk
      let res := run_collision_checks hr.1 rest
      (res.1, hr.2 :: res.2)
    else
      run_collision_checks robots rest

/-- One iteration of `_collision_detection_loop` (the pure part: pair
checking, event emission, avoidance execution). -/
def collision_detection_tick (robots : List Robot) :
    List Robot × List CollisionEvent :=
  run_collision_checks robots (robot_pairs robots)

/-- The position `RobotPosition(0, 0, 0, 0, 0, 0, time.time())` written by
`register_robot`. -/
def origin_position : RobotPosition :=
  { x := 0, y := 0, z := 0, rx := 0, ry := 0, rz := 0 }

/-- `register_robot`: unconditionally writes `self.robots[robot_id] = info`
(a Python dict write: overwrites an existing entry in place, appends a new
one), resets the position to the origin and the path to `None`, then returns
the result of `_connect_robot`, which is `True` on both of its branches.
There is no duplicate-id check. -/
def register_robot (robots : List Robot) (rid : ℕ) (brand : RobotBrand) :
    List Robot × Bool :=
  let info : Robot :=
    { id := rid, brand := brand, status := .IDLE
      reach_radius := calculate_reach_radius brand
      pos := origin_position, path := none }
  if robots.any (fun r => r.id = rid) then
    (robots.map (fun r => if r.id = rid then info else r), true)
  else
    (robots ++ [info], true)

/-- `_generate_safe_path`: 10 points, point `i` at progress `i/9`, offset
`progress*100` in x and y, `time_from_start = progress * 2.0`, velocity 500,
acceleration 100, total duration 2.0, active, `start_time = time.time()`
(the `now` parameter). -/
def generate_safe_path (pos : RobotPosition) (rid : ℕ) (prio : ℕ) (now : ℚ) :
    RobotPath :=
  { robot_id := rid
    points := (List.range 10).map (fun i =>
      let progress : ℚ := (i : ℚ) / 9
      { position :=
          { x := pos.x + progress * 100, y := pos.y + progress * 100
            z := pos.z, rx := pos.rx, ry := pos.ry, rz := pos.rz }
        velocity := 500, acceleration := 100
        time_from_start := progress * 2, collision_risk := 0 })
    total_duration := 2
    priority := prio
    is_active := true
    start_time := now }

/-- The common shift performed both by `_delay_robot_start` and inline by
`_generate_coordinated_paths`: `start_time += delay` and
`point.time_from_start += delay` for every point. -/
def shift_path (p : RobotPath) (delay : ℚ) : RobotPath :=
  { p with
    start_time := p.start_time + delay
    points := p.points.map (fun pt =>
      { pt with time_from_start := pt.time_from_start + delay }) }

/-- `_delay_robot_start` on `self.robot_paths[robot_id]` (`if path:` guards
the `None` case). -/
def delay_robot_start (p : Option RobotPath) (delay : ℚ) : Option RobotPath :=
  match p with
  | some path => some (shift_path path delay)
  | none => none

/-- The first loop of `coordinate_robots`:
`if robot_id in self.robots: status = COORDINATED`, for each listed id. -/
def set_coordinated (robots : List Robot) (ids : List ℕ) : List Robot :=
  ids.foldl (fun rs rid =>
    if rs.any (fun r => r.id = rid) then set_status rs rid .COORDINATED
    else rs) robots

/-- `_generate_coordinated_paths`: `for i, robot_id in enumerate(robot_ids)`,
`start_delay = i * 2.0`, generate a safe path and shift it by the delay.
An unregistered id makes `_generate_safe_path` raise `KeyError` on
`self.robot_positions[robot_id]`, aborting the whole call with no paths
(the local `paths` dict is discarded): modeled as `none`. -/
def generate_coordinated_paths (robots : List Robot) (now : ℚ) :
    ℕ → List ℕ → Option (List (ℕ × RobotPath))
  | _, [] => some []
  | i, rid :: rest =>
    match find_robot robots rid with
    | none => none
    | some r =>
      let start_delay : ℚ := (i : ℚ) * 2
      let path := shift_path
        (generate_safe_path r.pos rid (get_robot_priority robots rid) now)
        start_delay
      match generate_coordinated_paths robots now (i + 1) rest with
      | none => none
      | some ps => some ((rid, path) :: ps)

/-- Write `self.robot_paths[robot_id] = path` on the registry list. -/
def set_path (robots : List Robot) (rid : ℕ) (p : RobotPath) : List Robot :=
  robots.map (fun r => if r.id = rid then { r with path := some p } else r)

/-- The publishing loop of `coordinate_robots`:
`self.robot_paths[robot_id] = path` for each generated path. -/
def publish_paths (robots : List Robot) (paths : List (ℕ × RobotPath)) :
    List Robot :=
  paths.foldl (fun rs pr => set_path rs pr.1 pr.2) robots

/-- `coordinate_robots`: mark every listed registered robot COORDINATED,
generate the staggered paths, publish them and return True; if generation
raises (unregistered id), the `except` branch returns False — with the
statuses already mutated and nothing published. -/
def coordinate_robots (robots : List Robot) (ids : List ℕ) (now : ℚ) :
    List Robot × Bool :=
  let rs1 := set_coordinated robots ids
  match generate_coordinated_paths rs1 now 0 ids with
  | some ps => (publish_paths rs1 ps, true)
  | none => (rs1, false)

/-- The status a registry associates to an id. -/
def robot_status (robots : List Robot) (rid : ℕ) : Option RobotStatus :=
  (find_robot robots rid).map Robot.status

/-- The active path a registry associates to an id. -/
def robot_path_of (robots : List Robot) (rid : ℕ) : Option RobotPath :=
  (find_robot robots rid).bind Robot.path

/-- First robot of the C2 tie scenario: ABB, id 1, at the origin. -/
def tie_robot1 : Robot :=
  { id := 1, brand := .ABB, status := .IDLE, reach_radius := 1600,
    pos := origin_position, path := none }

/-- Second robot of the C2 tie scenario: ABB, id 2, 2040mm away along x
(combined reach 3400mm, so risk = 1 - (2040/3400)^2 = 0.64: DANGER). -/
def tie_robot2 : Robot :=
  { id := 2, brand := .ABB, status := .IDLE, reach_radius := 1600,
    pos := { x := 2040, y := 0, z := 0, rx := 0, ry := 0, rz := 0 },
    path := none }

/-- First robot of the C2 witness scenario: YASKAWA (priority 2), id 1. -/
def prio_robot1 : Robot :=
  { id := 1, brand := .YASKAWA, status := .MOVING, reach_radius := 1500,
    pos := origin_position, path := none }

/-- Second robot of the C2 witness scenario: ABB (priority 1), id 2. -/
def prio_robot2 : Robot :=
  { id := 2, brand := .ABB, status := .IDLE, reach_radius := 1600,
    pos := origin_position, path := none }

/-- A DANGER event between the two witness robots. -/
def prio_event : CollisionEvent :=
  { robot1_id := 1, robot2_id := 2, severity := .DANGER,
    avoidance_action := "" }

/-- First-registered robot of the C4 scenario: id 2 (the larger id first). -/
def rev_robot2 : Robot :=
  { id := 2, brand := .YASKAWA, status := .IDLE, reach_radius := 1500,
    pos := origin_position, path := none }

/-- Second-registered robot of the C4 scenario: id 1, same position
(distance 0, risk 1). -/
def rev_robot1 : Robot :=
  { id := 1, brand := .YASKAWA, status := .IDLE, reach_radius := 1500,
    pos := origin_position, path := none }

/-- A lone WAITING robot, for the C5 scenario. -/
def waiting_robot : Robot :=
  { id := 1, brand := .YASKAWA, status := .WAITING, reach_radius := 1500,
    pos := origin_position, path := none }

/-- First robot of the C9 scenario: UNKNOWN brand (reach 1200), id 1. -/
def safe_robot1 : Robot :=
  { id := 1, brand := .UNKNOWN, status := .IDLE, reach_radius := 1200,
    pos := origin_position, path := none }

/-- Second robot of the C9 scenario: 2340mm away; combined reach 2600mm, so
risk = 1 - (2340/2600)^2 = 0.19, strictly between the 0.1 emission threshold
and the 0.2 WARNING boundary. -/
def safe_robot2 : Robot :=
  { id := 2, brand := .UNKNOWN, status := .IDLE, reach_radius := 1200,
    pos := { x := 2340, y := 0, z := 0, rx := 0, ry := 0, rz := 0 },
    path := none }

/-- The existing registry entry of the C6 scenario: id 1, ABB, WAITING, a
nonzero position. -/
def dup_robot : Robot :=
  { id := 1, brand := .ABB, status := .WAITING, reach_radius := 1600,
    pos := { x := 5, y := 5, z := 5, rx := 0, ry := 0, rz := 0 },
    path := none }

/-- Robot 1 of the C8 witness scenario. -/
def co_robot1 : Robot :=
  { id := 1, brand := .YASKAWA, status := .IDLE, reach_radius := 1500,
    pos := origin_position, path := none }

/-- Robot 2 of the C8 witness scenario. -/
def co_robot2 : Robot :=
  { id := 2, brand := .ABB, status := .IDLE, reach_radius := 1600,
    pos := origin_position, path := none }

/-- Robot 3 of the C8 witness scenario. -/
def co_robot3 : Robot :=
  { id := 3, brand := .UNKNOWN, status := .IDLE, reach_radius := 1200,
    pos := origin_position, path := none }

/-- The sole registered robot of the C10 witness scenario. -/
def lone_robot : Robot :=
  { id := 1, brand := .ABB, status := .IDLE, reach_radius := 1600,
    pos := origin_position, path := none }

/-- `check_robot_collision` agrees with `collision_risk` at the Euclidean
distance: whenever `d ≥ 0` and `d^2` is the squared distance between the two
positions (i.e. `d` is the Euclidean distance the source computes), and the
combined reach is positive, the two formulations coincide. -/
theorem check_robot_collision_eq_collision_risk (r1 r2 : Robot) (d : ℚ)
    (hd : 0 ≤ d)
    (hsq : d ^ 2 = (r1.pos.x - r2.pos.x) ^ 2 + (r1.pos.y - r2.pos.y) ^ 2 +
      (r1.pos.z - r2.pos.z) ^ 2)
    (hc : 0 < r1.reach_radius + r2.reach_radius + safety_margin) :
    check_robot_collision r1 r2 =
      collision_risk d (r1.reach_radius + r2.reach_radius + safety_margin) := by
  unfold check_robot_collision collision_risk
  rw [← hsq]
  have hiff : d ^ 2 ≤ (r1.reach_radius + r2.reach_radius + safety_margin) ^ 2 ↔
      d ≤ r1.reach_radius + r2.reach_radius + safety_margin := by
    constructor
    · intro h
      nlinarith
    · intro h
      nlinarith
  rcases le_or_lt d (r1.reach_radius + r2.reach_radius + safety_margin) with h | h
  · rw [if_pos (hiff.mpr h), if_pos h, div_pow]
  · rw [if_neg (fun hsq2 => absurd (hiff.mp hsq2) (not_le.mpr h)),
      if_neg (not_le.mpr h)]

/-- C1: for every pair of registered robots (hence reach radii from the brand
table) and every Euclidean distance `d ≥ 0`, the computed collision risk is 0
when `d ≥ combined_reach` (= reach1 + reach2 + 200mm margin), equals
`1 - (d/combined_reach)^2` otherwise, always lies in `[0,1]`, and is
monotonically non-increasing in the distance. -/
theorem collision_risk_spec (b1 b2 : RobotBrand) (d d2 : ℚ)
    (hd : 0 ≤ d) (hdd : d ≤ d2) :
    (combined_reach b1 b2 ≤ d → collision_risk d (combined_reach b1 b2) = 0) ∧
    (d < combined_reach b1 b2 →
      collision_risk d (combined_reach b1 b2) =
        1 - (d / combined_reach b1 b2) ^ 2) ∧
    0 ≤ collision_risk d (combined_reach b1 b2) ∧
    collision_risk d (combined_reach b1 b2) ≤ 1 ∧
    collision_risk d2 (combined_reach b1 b2) ≤
      collision_risk d (combined_reach b1 b2) := by
  have hc : 0 < combined_reach b1 b2 := by
    unfold combined_reach calculate_reach_radius safety_margin
    cases b1 <;> cases b2 <;> norm_num
  set c := combined_reach b1 b2 with hcdef
  refine ⟨?_, ?_, ?_, ?_, ?_⟩
  · intro h
    unfold collision_risk
    rcases eq_or_lt_of_le h with heq | hlt
    · rw [if_pos (le_of_eq heq.symm), ← heq, div_self (ne_of_gt hc)]
      norm_num
    · rw [if_neg (not_le.mpr hlt)]
  · intro h
    unfold collision_risk
    rw [if_pos h.le]
  · unfold collision_risk
    split
    · rename_i h
      have : (d / c) ^ 2 ≤ 1 := by
        rw [div_pow, div_le_one (by positivity)]
        nlinarith
      linarith
    · exact le_refl 0
  · unfold collision_risk
    split
    · have : 0 ≤ (d / c) ^ 2 := sq_nonneg _
      linarith
    · norm_num
  · unfold collision_risk
    rcases le_or_lt d2 c with h2 | h2
    · rw [if_pos h2, if_pos (le_trans hdd h2)]
      have : (d / c) ^ 2 ≤ (d2 / c) ^ 2 := by
        rw [div_pow, div_pow]
        apply div_le_div_of_nonneg_right _ (by positivity)
        · nlinarith
      linarith
    · rw [if_neg (not_le.mpr h2)]
      split
      · rename_i h
        have : (d / c) ^ 2 ≤ 1 := by
          rw [div_pow, div_le_one (by positivity)]
          nlinarith
        linarith
      · exact le_refl 0

/-- Witness for C1 at brands YASKAWA/ABB, distances 100 and 5000:
combined reach 3300, risk(100) = 1 - (100/3300)^2, risk(5000) = 0. -/
theorem collision_risk_spec_witness :
    (0:ℚ) ≤ 100 ∧ (100:ℚ) ≤ 5000 ∧
    ((combined_reach .YASKAWA .ABB ≤ 100 →
        collision_risk 100 (combined_reach .YASKAWA .ABB) = 0) ∧
     ((100:ℚ) < combined_reach .YASKAWA .ABB →
        collision_risk 100 (combined_reach .YASKAWA .ABB) =
          1 - (100 / combined_reach .YASKAWA .ABB) ^ 2) ∧
     0 ≤ collision_risk 100 (combined_reach .YASKAWA .ABB) ∧
     collision_risk 100 (combined_reach .YASKAWA .ABB) ≤ 1 ∧
     collision_risk 5000 (combined_reach .YASKAWA .ABB) ≤
       collision_risk 100 (combined_reach .YASKAWA .ABB)) :=
  ⟨by norm_num, by norm_num,
    collision_risk_spec .YASKAWA .ABB 100 5000 (by norm_num) (by norm_num)⟩

/-- `set_status` preserves ids, so `find_robot` still finds the same entry,
status-updated when it is the targeted one. -/
theorem find_robot_set_status_some (robots : List Robot) (rid rid2 : ℕ)
    (st : RobotStatus) (r : Robot) (h : find_robot robots rid = some r) :
    find_robot (set_status robots rid2 st) rid =
      some (if r.id = rid2 then { r with status := st } else r) := by
  induction robots with
  | nil => simp [find_robot] at h
  | cons a rs ih =>
    unfold find_robot set_status at *
    simp only [List.map_cons]
    by_cases h1 : a.id = rid
    · rw [List.find?_cons_of_pos _ (by simp [h1])] at h
      rw [List.find?_cons_of_pos]
      · cases h
        rfl
      · by_cases h2 : a.id = rid2
        · rw [if_pos h2]
          simp [h1]
        · rw [if_neg h2]
          simp [h1]
    · rw [List.find?_cons_of_neg _ (by simp [h1])] at h
      rw [List.find?_cons_of_neg]
      · exact ih h
      · by_cases h2 : a.id = rid2
        · rw [if_pos h2]
          simp [h1]
        · rw [if_neg h2]
          simp [h1]

/-- Updating another id's status leaves `find_robot` unchanged. -/
theorem find_robot_set_status_other (robots : List Robot) (rid rid2 : ℕ)
    (st : RobotStatus) (h : rid ≠ rid2) :
    find_robot (set_status robots rid2 st) rid = find_robot robots rid := by
  induction robots with
  | nil => rfl
  | cons a rs ih =>
    unfold find_robot set_status at *
    simp only [List.map_cons]
    by_cases h1 : a.id = rid
    · have h2 : ¬a.id = rid2 := by
        rw [h1]
        exact h
      rw [List.find?_cons_of_pos _ (by rw [if_neg h2]; simp [h1]),
        List.find?_cons_of_pos _ (by simp [h1])]
      rw [if_neg h2]
    · rw [List.find?_cons_of_neg, List.find?_cons_of_neg _ (by simp [h1])]
      · exact ih
      · by_cases h2 : a.id = rid2
        · rw [if_pos h2]
          simp [h1]
        · rw [if_neg h2]
          simp [h1]

/-- Setting a registered robot's status makes `robot_status` report it. -/
theorem robot_status_set_status_self (robots : List Robot) (rid : ℕ)
    (st : RobotStatus) (r : Robot) (h : find_robot robots rid = some r) :
    robot_status (set_status robots rid st) rid = some st := by
  have hid : r.id = rid := by
    have := List.find?_some h
    simpa using this
  unfold robot_status
  rw [find_robot_set_status_some _ _ _ _ _ h]
  simp [hid]

/-- Setting another robot's status leaves a robot's status unchanged. -/
theorem robot_status_set_status_other (robots : List Robot) (rid rid2 : ℕ)
    (st : RobotStatus) (h : rid ≠ rid2) :
    robot_status (set_status robots rid2 st) rid = robot_status robots rid := by
  unfold robot_status
  rw [find_robot_set_status_other _ _ _ _ h]

/-- Unfolding equation for `run_collision_checks` on a pair. -/
theorem run_collision_checks_cons (robots : List Robot) (a b : Robot)
    (rest : List (Robot × Robot)) :
    run_collision_checks robots ((a, b) :: rest) =
      if check_robot_collision a b > 1/10 then
        ((run_collision_checks
            (handle_collision_risk robots a.id b.id
              (check_robot_collision a b)).1 rest).1,
          (handle_collision_risk robots a.id b.id
            (check_robot_collision a b)).2 ::
            (run_collision_checks
              (handle_collision_risk robots a.id b.id
                (check_robot_collision a b)).1 rest).2)
      else run_collision_checks robots rest := by
  rfl

/-- Unfolding equation for `run_collision_checks` on the empty pair list. -/
theorem run_collision_checks_nil (robots : List Robot) :
    run_collision_checks robots [] = (robots, []) := rfl

/-- C2 counterexample: two equal-priority (both ABB) robots, ids 1 and 2,
registered in that order, 2040mm apart (combined reach 3400mm, risk 0.64, a
DANGER event).  The detection tick emits the DANGER event and stops robot 1 —
the FIRST robot of the pair, which here is the SMALLER id — while robot 2
(the larger id, which the claim says should be stopped on a priority tie)
stays IDLE. -/
theorem danger_tie_stops_first_robot_not_larger_id :
    get_robot_priority [tie_robot1, tie_robot2] 1 =
      get_robot_priority [tie_robot1, tie_robot2] 2 ∧
    (collision_detection_tick [tie_robot1, tie_robot2]).2.map
        CollisionEvent.severity = [.DANGER] ∧
    robot_status (collision_detection_tick [tie_robot1, tie_robot2]).1 1 =
      some .WAITING ∧
    robot_status (collision_detection_tick [tie_robot1, tie_robot2]).1 2 =
      some .IDLE := by
  have hrisk : check_robot_collision tie_robot1 tie_robot2 = 16/25 := by
    norm_num [check_robot_collision, tie_robot1, tie_robot2, safety_margin,
      origin_position]
  have hpairs : robot_pairs [tie_robot1, tie_robot2] =
      [(tie_robot1, tie_robot2)] := rfl
  have htick : collision_detection_tick [tie_robot1, tie_robot2] =
      run_collision_checks [tie_robot1, tie_robot2]
        [(tie_robot1, tie_robot2)] := by
    rw [collision_detection_tick, hpairs]
  rw [htick, run_collision_checks_cons, hrisk,
    if_pos (by norm_num : (16/25 : ℚ) > 1/10), run_collision_checks_nil]
  have hclass : classify_collision_zone (16/25) = .DANGER := by
    norm_num [classify_collision_zone]
  refine ⟨rfl, ?_, ?_, ?_⟩ <;>
    simp [handle_collision_risk, hclass, execute_collision_avoidance,
      get_robot_priority, find_robot, tie_robot1, tie_robot2, stop_robot,
      set_status, robot_status, List.find?]

/-- C2 (amended): for a CollisionEvent between two distinct registered
robots: CRITICAL issues an emergency stop to both (both statuses become
EMERGENCY_STOP, action `emergency_stop_both`); DANGER stops exactly the
lower-priority robot (its status becomes WAITING, the other's is untouched),
and when the priorities are equal the robot stopped is robot1 — the
first-listed robot of the pair (the earlier-registered one) — not the robot
with the larger numeric id. -/
theorem execute_collision_avoidance_spec (robots : List Robot)
    (ev : CollisionEvent) (r1 r2 : Robot)
    (h1 : find_robot robots ev.robot1_id = some r1)
    (h2 : find_robot robots ev.robot2_id = some r2)
    (hne : ev.robot1_id ≠ ev.robot2_id) :
    (ev.severity = .CRITICAL →
      robot_status (execute_collision_avoidance robots ev).1 ev.robot1_id =
          some .EMERGENCY_STOP ∧
      robot_status (execute_collision_avoidance robots ev).1 ev.robot2_id =
          some .EMERGENCY_STOP ∧
      (execute_collision_avoidance robots ev).2 = "emergency_stop_both") ∧
    (ev.severity = .DANGER →
      (get_robot_priority robots ev.robot1_id >
          get_robot_priority robots ev.robot2_id →
        robot_status (execute_collision_avoidance robots ev).1 ev.robot2_id =
            some .WAITING ∧
        robot_status (execute_collision_avoidance robots ev).1 ev.robot1_id =
            some r1.status) ∧
      (get_robot_priority robots ev.robot1_id ≤
          get_robot_priority robots ev.robot2_id →
        robot_status (execute_collision_avoidance robots ev).1 ev.robot1_id =
            some .WAITING ∧
        robot_status (execute_collision_avoidance robots ev).1 ev.robot2_id =
            some r2.status)) := by
  obtain ⟨i1, i2, sev, act⟩ := ev
  simp only at h1 h2 hne ⊢
  constructor
  · intro hs
    subst hs
    refine ⟨?_, ?_, rfl⟩
    · show robot_status
          (set_status (set_status robots i1 .EMERGENCY_STOP) i2
            .EMERGENCY_STOP) i1 = some .EMERGENCY_STOP
      rw [robot_status_set_status_other _ _ _ _ hne]
      exact robot_status_set_status_self _ _ _ _ h1
    · show robot_status
          (set_status (set_status robots i1 .EMERGENCY_STOP) i2
            .EMERGENCY_STOP) i2 = some .EMERGENCY_STOP
      exact robot_status_set_status_self _ _ _ _
        (find_robot_set_status_some _ _ _ _ _ h2)
  · intro hs
    subst hs
    constructor
    · intro hp
      have hred : execute_collision_avoidance robots
          { robot1_id := i1, robot2_id := i2, severity := .DANGER,
            avoidance_action := act } =
          (stop_robot robots i2, "stop_" ++ toString i2) := by
        unfold execute_collision_avoidance
        simp only [if_pos hp]
      rw [hred]
      unfold stop_robot
      refine ⟨robot_status_set_status_self _ _ _ _ h2, ?_⟩
      rw [robot_status_set_status_other _ _ _ _ hne]
      unfold robot_status
      rw [h1]
      rfl
    · intro hp
      have hred : execute_collision_avoidance robots
          { robot1_id := i1, robot2_id := i2, severity := .DANGER,
            avoidance_action := act } =
          (stop_robot robots i1, "stop_" ++ toString i1) := by
        unfold execute_collision_avoidance
        simp only [if_neg (not_lt.mpr hp)]
      rw [hred]
      unfold stop_robot
      refine ⟨robot_status_set_status_self _ _ _ _ h1, ?_⟩
      rw [robot_status_set_status_other _ _ _ _ (Ne.symm hne)]
      unfold robot_status
      rw [h2]
      rfl

/-- Witness for C2 (amended): a YASKAWA (priority 2) robot 1 and an ABB
(priority 1) robot 2; the hypotheses hold concretely and a DANGER event
stops robot 2 (the lower-priority one), leaving robot 1 MOVING. -/
theorem execute_collision_avoidance_spec_witness :
    find_robot [prio_robot1, prio_robot2] 1 = some prio_robot1 ∧
    find_robot [prio_robot1, prio_robot2] 2 = some prio_robot2 ∧
    (1 : ℕ) ≠ 2 ∧
    ((prio_event.severity = .CRITICAL →
      robot_status
          (execute_collision_avoidance [prio_robot1, prio_robot2]
            prio_event).1 1 = some .EMERGENCY_STOP ∧
      robot_status
          (execute_collision_avoidance [prio_robot1, prio_robot2]
            prio_event).1 2 = some .EMERGENCY_STOP ∧
      (execute_collision_avoidance [prio_robot1, prio_robot2]
          prio_event).2 = "emergency_stop_both") ∧
    (prio_event.severity = .DANGER →
      (get_robot_priority [prio_robot1, prio_robot2] 1 >
          get_robot_priority [prio_robot1, prio_robot2] 2 →
        robot_status
            (execute_collision_avoidance [prio_robot1, prio_robot2]
              prio_event).1 2 = some .WAITING ∧
        robot_status
            (execute_collision_avoidance [prio_robot1, prio_robot2]
              prio_event).1 1 = some .MOVING) ∧
      (get_robot_priority [prio_robot1, prio_robot2] 1 ≤
          get_robot_priority [prio_robot1, prio_robot2] 2 →
        robot_status
            (execute_collision_avoidance [prio_robot1, prio_robot2]
              prio_event).1 1 = some .WAITING ∧
        robot_status
            (execute_collision_avoidance [prio_robot1, prio_robot2]
              prio_event).1 2 = some .IDLE))) :=
  ⟨rfl, rfl, by decide,
    execute_collision_avoidance_spec [prio_robot1, prio_robot2] prio_event
      prio_robot1 prio_robot2 rfl rfl (by decide)⟩

/-- `find_robot` commutes with any id-preserving rewrite of the registry. -/
theorem find_robot_map (robots : List Robot) (rid : ℕ) (g : Robot → Robot)
    (hg : ∀ r, (g r).id = r.id) :
    find_robot (robots.map g) rid = (find_robot robots rid).map g := by
  induction robots with
  | nil => rfl
  | cons a rs ih =>
    unfold find_robot at *
    simp only [List.map_cons]
    by_cases h1 : a.id = rid
    · rw [List.find?_cons_of_pos _ (by simp [hg, h1]),
        List.find?_cons_of_pos _ (by simp [h1])]
      rfl
    · rw [List.find?_cons_of_neg _ (by simp [hg, h1]),
        List.find?_cons_of_neg _ (by simp [h1])]
      exact ih

/-- A robot absent from the registry stays absent after a status write. -/
theorem find_robot_set_status_none (robots : List Robot) (rid rid2 : ℕ)
    (st : RobotStatus) (h : find_robot robots rid = none) :
    find_robot (set_status robots rid2 st) rid = none := by
  induction robots with
  | nil => rfl
  | cons a rs ih =>
    unfold find_robot set_status at *
    simp only [List.map_cons]
    by_cases h1 : a.id = rid
    · rw [List.find?_cons_of_pos _ (by simp [h1])] at h
      exact absurd h (by simp)
    · rw [List.find?_cons_of_neg _ (by simp [h1])] at h
      rw [List.find?_cons_of_neg]
      · exact ih h
      · by_cases h2 : a.id = rid2
        · rw [if_pos h2]
          simp [h1]
        · rw [if_neg h2]
          simp [h1]

/-- Status writes do not change any robot's priority (brand is immutable). -/
theorem get_robot_priority_set_status (robots : List Robot) (rid rid2 : ℕ)
    (st : RobotStatus) :
    get_robot_priority (set_status robots rid2 st) rid =
      get_robot_priority robots rid := by
  unfold get_robot_priority
  cases hf : find_robot robots rid with
  | none => rw [find_robot_set_status_none _ _ _ _ hf]
  | some r =>
    rw [find_robot_set_status_some _ _ _ _ _ hf]
    by_cases h2 : r.id = rid2
    · rw [if_pos h2]
    · rw [if_neg h2]

/-- The avoidance executor does not change any robot's priority. -/
theorem get_robot_priority_execute (robots : List Robot) (ev : CollisionEvent)
    (rid : ℕ) :
    get_robot_priority (execute_collision_avoidance robots ev).1 rid =
      get_robot_priority robots rid := by
  obtain ⟨i1, i2, sev, act⟩ := ev
  cases sev with
  | CRITICAL =>
    show get_robot_priority
      (set_status (set_status robots i1 .EMERGENCY_STOP) i2 .EMERGENCY_STOP)
      rid = _
    rw [get_robot_priority_set_status, get_robot_priority_set_status]
  | DANGER =>
    show get_robot_priority
      (if get_robot_priority robots i1 > get_robot_priority robots i2 then
        (stop_robot robots i2, "stop_" ++ toString i2)
      else (stop_robot robots i1, "stop_" ++ toString i1)).1 rid = _
    by_cases hp : get_robot_priority robots i1 > get_robot_priority robots i2
    · rw [if_pos hp]
      exact get_robot_priority_set_status _ _ _ _
    · rw [if_neg hp]
      exact get_robot_priority_set_status _ _ _ _
  | WARNING => rfl
  | SAFE => rfl
  | BLOCKED => rfl

/-- The action string chosen by the executor depends on the registry only
through priorities. -/
theorem execute_action_of_priorities (rs robots0 : List Robot)
    (ev : CollisionEvent)
    (hp : ∀ rid, get_robot_priority rs rid = get_robot_priority robots0 rid) :
    (execute_collision_avoidance rs ev).2 =
      (execute_collision_avoidance robots0 ev).2 := by
  obtain ⟨i1, i2, sev, act⟩ := ev
  cases sev with
  | CRITICAL => rfl
  | DANGER =>
    show (if get_robot_priority rs i1 > get_robot_priority rs i2 then
        (stop_robot rs i2, "stop_" ++ toString i2)
      else (stop_robot rs i1, "stop_" ++ toString i1)).2 =
      (if get_robot_priority robots0 i1 > get_robot_priority robots0 i2 then
        (stop_robot robots0 i2, "stop_" ++ toString i2)
      else (stop_robot robots0 i1, "stop_" ++ toString i1)).2
    rw [hp i1, hp i2]
    by_cases hgt : get_robot_priority robots0 i1 > get_robot_priority robots0 i2
    · rw [if_pos hgt, if_pos hgt]
    · rw [if_neg hgt, if_neg hgt]
  | WARNING => rfl
  | SAFE => rfl
  | BLOCKED => rfl

/-- The event stream of a pass is a `filterMap` over the pair list: each
pair's event is independent of the status updates interleaved by the fold
(risks read positions and reach radii, actions read priorities, all of which
the executor leaves untouched). -/
theorem run_collision_checks_events (robots0 : List Robot)
    (pairs : List (Robot × Robot)) (rs : List Robot)
    (hp : ∀ rid, get_robot_priority rs rid = get_robot_priority robots0 rid) :
    (run_collision_checks rs pairs).2 =
      pairs.filterMap (fun pr =>
        if check_robot_collision pr.1 pr.2 > 1/10 then
          some (handle_collision_risk robots0 pr.1.id pr.2.id
            (check_robot_collision pr.1 pr.2)).2
        else none) := by
  induction pairs generalizing rs with
  | nil => rfl
  | cons pr rest ih =>
    obtain ⟨a, b⟩ := pr
    rw [run_collision_checks_cons]
    by_cases hr : check_robot_collision a b > 1/10
    · rw [if_pos hr]
      have hhead : (handle_collision_risk rs a.id b.id
          (check_robot_collision a b)).2 =
          (handle_collision_risk robots0 a.id b.id
            (check_robot_collision a b)).2 := by
        unfold handle_collision_risk
        simp only
        rw [execute_action_of_priorities rs robots0 _ hp]
      have htail := ih (handle_collision_risk rs a.id b.id
        (check_robot_collision a b)).1
        (fun rid => (get_robot_priority_execute rs _ rid).trans (hp rid))
      rw [hhead, htail]
      have hfm : List.filterMap (fun pr : Robot × Robot =>
          if check_robot_collision pr.1 pr.2 > 1/10 then
            some (handle_collision_risk robots0 pr.1.id pr.2.id
              (check_robot_collision pr.1 pr.2)).2
          else none) ((a, b) :: rest) =
          (handle_collision_risk robots0 a.id b.id
            (check_robot_collision a b)).2 ::
            List.filterMap (fun pr : Robot × Robot =>
              if check_robot_collision pr.1 pr.2 > 1/10 then
                some (handle_collision_risk robots0 pr.1.id pr.2.id
                  (check_robot_collision pr.1 pr.2)).2
              else none) rest := by
        rw [List.filterMap_cons]
        simp only
        rw [if_pos hr]
      rw [hfm]
    · rw [if_neg hr]
      rw [ih rs hp]
      have hfm : List.filterMap (fun pr : Robot × Robot =>
          if check_robot_collision pr.1 pr.2 > 1/10 then
            some (handle_collision_risk robots0 pr.1.id pr.2.id
              (check_robot_collision pr.1 pr.2)).2
          else none) ((a, b) :: rest) =
          List.filterMap (fun pr : Robot × Robot =>
            if check_robot_collision pr.1 pr.2 > 1/10 then
              some (handle_collision_risk robots0 pr.1.id pr.2.id
                (check_robot_collision pr.1 pr.2)).2
            else none) rest := by
        rw [List.filterMap_cons]
        simp only
        rw [if_neg hr]
      rw [hfm]

/-- C4 (amended): in each detection tick the pairs are evaluated in
REGISTRATION (dict insertion) order — `robot_pairs` lists every unordered
pair once, first component earlier in the registry — not in ascending-id
order; an event is emitted (and handed to the avoidance executor) for a pair
iff its risk is strictly greater than 0.1; and the event stream is a pure
function of the registry contents (a `filterMap` over the pair list),
hence reproducible on identical inputs. -/
theorem collision_detection_tick_events (robots : List Robot) :
    (collision_detection_tick robots).2 =
      (robot_pairs robots).filterMap (fun pr =>
        if check_robot_collision pr.1 pr.2 > 1/10 then
          some (handle_collision_risk robots pr.1.id pr.2.id
            (check_robot_collision pr.1 pr.2)).2
        else none) :=
  run_collision_checks_events robots (robot_pairs robots) robots
    (fun _ => rfl)

/-- C4 counterexample: with robot 2 registered before robot 1, the single
emitted event is the pair (2, 1) — first id 2, second id 1 — so pairs are
NOT evaluated in ascending-id order (ascending order would emit (1, 2)). -/
theorem detection_pair_order_not_ascending :
    (collision_detection_tick [rev_robot2, rev_robot1]).2.map
        (fun ev => (ev.robot1_id, ev.robot2_id)) = [(2, 1)] ∧
    ¬(2 : ℕ) < 1 := by
  have hrisk : check_robot_collision rev_robot2 rev_robot1 = 1 := by
    norm_num [check_robot_collision, rev_robot2, rev_robot1, safety_margin,
      origin_position]
  have hpairs : robot_pairs [rev_robot2, rev_robot1] =
      [(rev_robot2, rev_robot1)] := rfl
  have htick : collision_detection_tick [rev_robot2, rev_robot1] =
      run_collision_checks [rev_robot2, rev_robot1]
        [(rev_robot2, rev_robot1)] := by
    rw [collision_detection_tick, hpairs]
  rw [htick, run_collision_checks_cons, hrisk,
    if_pos (by norm_num : (1 : ℚ) > 1/10), run_collision_checks_nil]
  constructor
  · rfl
  · decide

/-- The executor does not touch the status of a robot not referenced by the
event. -/
theorem robot_status_execute_other (robots : List Robot) (ev : CollisionEvent)
    (rid : ℕ) (h1 : ev.robot1_id ≠ rid) (h2 : ev.robot2_id ≠ rid) :
    robot_status (execute_collision_avoidance robots ev).1 rid =
      robot_status robots rid := by
  obtain ⟨i1, i2, sev, act⟩ := ev
  simp only at h1 h2
  cases sev with
  | CRITICAL =>
    show robot_status
      (set_status (set_status robots i1 .EMERGENCY_STOP) i2 .EMERGENCY_STOP)
      rid = _
    rw [robot_status_set_status_other _ _ _ _ (Ne.symm h2),
      robot_status_set_status_other _ _ _ _ (Ne.symm h1)]
  | DANGER =>
    show robot_status
      (if get_robot_priority robots i1 > get_robot_priority robots i2 then
        (stop_robot robots i2, "stop_" ++ toString i2)
      else (stop_robot robots i1, "stop_" ++ toString i1)).1 rid = _
    by_cases hp : get_robot_priority robots i1 > get_robot_priority robots i2
    · rw [if_pos hp]
      exact robot_status_set_status_other _ _ _ _ (Ne.symm h2)
    · rw [if_neg hp]
      exact robot_status_set_status_other _ _ _ _ (Ne.symm h1)
  | WARNING => rfl
  | SAFE => rfl
  | BLOCKED => rfl

/-- A status write either leaves a robot's status alone or sets it to the
written value. -/
theorem robot_status_set_status_rev (robots : List Robot) (rid rid2 : ℕ)
    (st : RobotStatus) :
    robot_status (set_status robots rid2 st) rid = robot_status robots rid ∨
    robot_status (set_status robots rid2 st) rid = some st := by
  cases hf : find_robot robots rid with
  | none =>
    left
    unfold robot_status
    rw [find_robot_set_status_none _ _ _ _ hf, hf]
  | some r =>
    by_cases h2 : r.id = rid2
    · right
      unfold robot_status
      rw [find_robot_set_status_some _ _ _ _ _ hf, if_pos h2]
      rfl
    · left
      unfold robot_status
      rw [find_robot_set_status_some _ _ _ _ _ hf, if_neg h2, hf]

/-- The executor only ever writes EMERGENCY_STOP or WAITING: it never makes
a status become IDLE. -/
theorem robot_status_execute_to_idle (robots : List Robot)
    (ev : CollisionEvent) (rid : ℕ)
    (h : robot_status (execute_collision_avoidance robots ev).1 rid =
      some .IDLE) :
    robot_status robots rid = some .IDLE := by
  obtain ⟨i1, i2, sev, act⟩ := ev
  cases sev with
  | CRITICAL =>
    replace h : robot_status
        (set_status (set_status robots i1 .EMERGENCY_STOP) i2
          .EMERGENCY_STOP) rid = some .IDLE := h
    rcases robot_status_set_status_rev (set_status robots i1 .EMERGENCY_STOP)
        rid i2 .EMERGENCY_STOP with he | he
    · rw [he] at h
      rcases robot_status_set_status_rev robots rid i1 .EMERGENCY_STOP
        with hf | hf
      · rw [hf] at h
        exact h
      · rw [hf] at h
        simp at h
    · rw [he] at h
      simp at h
  | DANGER =>
    by_cases hp : get_robot_priority robots i1 > get_robot_priority robots i2
    · replace h : robot_status
          (if get_robot_priority robots i1 > get_robot_priority robots i2
            then (stop_robot robots i2, "stop_" ++ toString i2)
            else (stop_robot robots i1, "stop_" ++ toString i1)).1 rid =
          some .IDLE := h
      rw [if_pos hp] at h
      replace h : robot_status (set_status robots i2 .WAITING) rid =
          some .IDLE := h
      rcases robot_status_set_status_rev robots rid i2 .WAITING with hf | hf
      · rw [hf] at h
        exact h
      · rw [hf] at h
        simp at h
    · replace h : robot_status
          (if get_robot_priority robots i1 > get_robot_priority robots i2
            then (stop_robot robots i2, "stop_" ++ toString i2)
            else (stop_robot robots i1, "stop_" ++ toString i1)).1 rid =
          some .IDLE := h
      rw [if_neg hp] at h
      replace h : robot_status (set_status robots i1 .WAITING) rid =
          some .IDLE := h
      rcases robot_status_set_status_rev robots rid i1 .WAITING with hf | hf
      · rw [hf] at h
        exact h
      · rw [hf] at h
        simp at h
  | WARNING => exact h
  | SAFE => exact h
  | BLOCKED => exact h

/-- Through a whole pass, a robot referenced by no emitted event keeps its
status. -/
theorem run_collision_checks_status (pairs : List (Robot × Robot)) :
    ∀ (rs : List Robot) (rid : ℕ) (st : RobotStatus),
      robot_status rs rid = some st →
      (∀ ev ∈ (run_collision_checks rs pairs).2,
        ev.robot1_id ≠ rid ∧ ev.robot2_id ≠ rid) →
      robot_status (run_collision_checks rs pairs).1 rid = some st := by
  induction pairs with
  | nil =>
    intro rs rid st h _
    exact h
  | cons pr rest ih =>
    intro rs rid st h href
    obtain ⟨a, b⟩ := pr
    by_cases hr : check_robot_collision a b > 1/10
    · rw [run_collision_checks_cons, if_pos hr] at href ⊢
      have hhd := href _ (List.mem_cons_self _ _)
      have hstat := robot_status_execute_other rs
        { robot1_id := a.id, robot2_id := b.id
          severity := classify_collision_zone (check_robot_collision a b)
          avoidance_action := "" } rid hhd.1 hhd.2
      exact ih _ rid st (hstat.trans h)
        (fun ev hev => href ev (List.mem_cons_of_mem _ hev))
    · rw [run_collision_checks_cons, if_neg hr] at href ⊢
      exact ih rs rid st h href

/-- Through a whole pass, no robot's status ever becomes IDLE. -/
theorem run_collision_checks_no_new_idle (pairs : List (Robot × Robot)) :
    ∀ (rs : List Robot) (rid : ℕ),
      robot_status (run_collision_checks rs pairs).1 rid = some .IDLE →
      robot_status rs rid = some .IDLE := by
  induction pairs with
  | nil =>
    intro rs rid h
    exact h
  | cons pr rest ih =>
    intro rs rid h
    obtain ⟨a, b⟩ := pr
    by_cases hr : check_robot_collision a b > 1/10
    · rw [run_collision_checks_cons, if_pos hr] at h
      exact robot_status_execute_to_idle _ _ _ (ih _ _ h)
    · rw [run_collision_checks_cons, if_neg hr] at h
      exact ih _ _ h

/-- C5 (amended): there is no automatic recovery.  A detection pass never
changes the status of a robot that no emitted CollisionEvent references — in
particular a Waiting robot is NOT cleared back to Idle — and a pass never
sets any status to Idle at all; there is no auto-recovery configuration flag
in the code, so an EmergencyStop robot is likewise never cleared back to
Idle automatically. -/
theorem no_automatic_recovery (robots : List Robot) (rid : ℕ)
    (st : RobotStatus) (h : robot_status robots rid = some st) :
    ((∀ ev ∈ (collision_detection_tick robots).2,
        ev.robot1_id ≠ rid ∧ ev.robot2_id ≠ rid) →
      robot_status (collision_detection_tick robots).1 rid = some st) ∧
    (st ≠ .IDLE →
      robot_status (collision_detection_tick robots).1 rid ≠ some .IDLE) := by
  constructor
  · intro href
    exact run_collision_checks_status (robot_pairs robots) robots rid st h href
  · intro hst hidle
    have hback :=
      run_collision_checks_no_new_idle (robot_pairs robots) robots rid hidle
    rw [h] at hback
    exact hst (Option.some.inj hback)

/-- C5 counterexample: a detection pass over a registry holding one WAITING
robot emits no event (so no active CollisionEvent references the robot), yet
the robot's status stays WAITING — it is not cleared back to Idle as the
claim says. -/
theorem waiting_robot_not_cleared :
    (collision_detection_tick [waiting_robot]).2 = [] ∧
    robot_status (collision_detection_tick [waiting_robot]).1 1 =
      some .WAITING ∧
    robot_status (collision_detection_tick [waiting_robot]).1 1 ≠
      some .IDLE := by
  refine ⟨rfl, rfl, fun h => ?_⟩
  have h2 : robot_status (collision_detection_tick [waiting_robot]).1 1 =
      some RobotStatus.WAITING := rfl
  rw [h2] at h
  simp at h

/-- Witness for C5 (amended) at the lone-WAITING-robot registry. -/
theorem no_automatic_recovery_witness :
    robot_status [waiting_robot] 1 = some .WAITING ∧
    (((∀ ev ∈ (collision_detection_tick [waiting_robot]).2,
        ev.robot1_id ≠ 1 ∧ ev.robot2_id ≠ 1) →
      robot_status (collision_detection_tick [waiting_robot]).1 1 =
        some .WAITING) ∧
    (RobotStatus.WAITING ≠ .IDLE →
      robot_status (collision_detection_tick [waiting_robot]).1 1 ≠
        some .IDLE)) :=
  ⟨rfl, no_automatic_recovery [waiting_robot] 1 .WAITING rfl⟩

/-- C9 counterexample: a detection pass CAN hand the executor an event of
severity SAFE — risk 0.19 exceeds the 0.1 emission threshold but classifies
as SAFE — refuting the claim that the SAFE branch is unreachable. -/
theorem safe_severity_event_emitted :
    (collision_detection_tick [safe_robot1, safe_robot2]).2.map
      CollisionEvent.severity = [.SAFE] := by
  have hrisk : check_robot_collision safe_robot1 safe_robot2 = 19/100 := by
    norm_num [check_robot_collision, safe_robot1, safe_robot2, safety_margin,
      origin_position]
  have hpairs : robot_pairs [safe_robot1, safe_robot2] =
      [(safe_robot1, safe_robot2)] := rfl
  have htick : collision_detection_tick [safe_robot1, safe_robot2] =
      run_collision_checks [safe_robot1, safe_robot2]
        [(safe_robot1, safe_robot2)] := by
    rw [collision_detection_tick, hpairs]
  rw [htick, run_collision_checks_cons, hrisk,
    if_pos (by norm_num : (19/100 : ℚ) > 1/10), run_collision_checks_nil]
  have hclass : classify_collision_zone (19/100) = .SAFE := by
    norm_num [classify_collision_zone]
  simp [handle_collision_risk, hclass, execute_collision_avoidance]

/-- C9 (amended): the SAFE branch of the avoidance executor IS reachable:
a pair whose risk lies strictly between the 0.1 emission threshold and the
0.2 WARNING boundary (here risk 0.19) produces an emitted CollisionEvent of
severity SAFE, which the executor handles with the no-op `monitor` branch,
leaving the registry unchanged. -/
theorem safe_branch_reachable :
    (1 : ℚ)/10 < 19/100 ∧ (19 : ℚ)/100 < 2/10 ∧
    check_robot_collision safe_robot1 safe_robot2 = 19/100 ∧
    (collision_detection_tick [safe_robot1, safe_robot2]).2 =
      [{ robot1_id := 1, robot2_id := 2, severity := .SAFE,
         avoidance_action := "monitor" }] ∧
    (collision_detection_tick [safe_robot1, safe_robot2]).1 =
      [safe_robot1, safe_robot2] := by
  have hrisk : check_robot_collision safe_robot1 safe_robot2 = 19/100 := by
    norm_num [check_robot_collision, safe_robot1, safe_robot2, safety_margin,
      origin_position]
  have hpairs : robot_pairs [safe_robot1, safe_robot2] =
      [(safe_robot1, safe_robot2)] := rfl
  have htick : collision_detection_tick [safe_robot1, safe_robot2] =
      run_collision_checks [safe_robot1, safe_robot2]
        [(safe_robot1, safe_robot2)] := by
    rw [collision_detection_tick, hpairs]
  have hclass : classify_collision_zone (19/100) = .SAFE := by
    norm_num [classify_collision_zone]
  refine ⟨by norm_num, by norm_num, hrisk, ?_, ?_⟩ <;>
    rw [htick, run_collision_checks_cons, hrisk,
      if_pos (by norm_num : (19/100 : ℚ) > 1/10), run_collision_checks_nil] <;>
      simp [handle_collision_risk, hclass, execute_collision_avoidance,
        safe_robot1, safe_robot2]

/-- The overwrite branch of `register_robot` keeps the id sequence of the
registry unchanged (the update preserves every entry's position and id). -/
theorem map_id_overwrite (robots : List Robot) (rid : ℕ) (info : Robot)
    (hinfo : info.id = rid) :
    (robots.map (fun r => if r.id = rid then info else r)).map Robot.id =
      robots.map Robot.id := by
  induction robots with
  | nil => rfl
  | cons a rs ih =>
    simp only [List.map_cons]
    rw [ih]
    congr 1
    by_cases h1 : a.id = rid
    · rw [if_pos h1, hinfo, h1]
    · rw [if_neg h1]

/-- After overwriting an existing id, `find_robot` returns the new entry. -/
theorem find_robot_overwrite (robots : List Robot) (rid : ℕ) (info : Robot)
    (hinfo : info.id = rid) (hmem : rid ∈ robots.map Robot.id) :
    find_robot (robots.map (fun r => if r.id = rid then info else r)) rid =
      some info := by
  induction robots with
  | nil => simp at hmem
  | cons a rs ih =>
    unfold find_robot at *
    simp only [List.map_cons]
    by_cases h1 : a.id = rid
    · rw [List.find?_cons_of_pos]
      · rw [if_pos h1]
      · rw [if_pos h1]
        simp [hinfo]
    · rw [List.find?_cons_of_neg]
      · apply ih
        simp only [List.map_cons, List.mem_cons] at hmem
        rcases hmem with h | h
        · exact absurd h.symm h1
        · exact h
      · rw [if_neg h1]
        simp [h1]

/-- C6 counterexample: registering id 1 again (now as YASKAWA) does NOT fail
— it returns True — and the existing entry is NOT left unchanged: it is
overwritten with a fresh IDLE entry at the origin with the new brand. -/
theorem duplicate_register_succeeds_and_overwrites :
    (register_robot [dup_robot] 1 .YASKAWA).2 = true ∧
    (register_robot [dup_robot] 1 .YASKAWA).1 =
      [{ id := 1, brand := .YASKAWA, status := .IDLE, reach_radius := 1500,
         pos := origin_position, path := none }] ∧
    find_robot (register_robot [dup_robot] 1 .YASKAWA).1 1 ≠
      some dup_robot := by
  refine ⟨rfl, rfl, fun h => ?_⟩
  have h2 : find_robot (register_robot [dup_robot] 1 .YASKAWA).1 1 =
      some { id := 1, brand := .YASKAWA, status := .IDLE,
             reach_radius := 1500, pos := origin_position, path := none } :=
    rfl
  rw [h2] at h
  simp [dup_robot] at h

/-- C6 (amended): registering an already-present id does not fail and is not
rejected: `register_robot` always returns True (`_connect_robot` returns
True on both branches), the registry's id sequence is unchanged on overwrite
(or extended by the new id), id uniqueness is preserved, and the entry under
the id is the fresh IDLE entry at the origin — the previous entry is
overwritten, not kept. -/
theorem register_robot_spec (robots : List Robot) (rid : ℕ)
    (brand : RobotBrand) (h : (robots.map Robot.id).Nodup) :
    (register_robot robots rid brand).2 = true ∧
    (register_robot robots rid brand).1.map Robot.id =
      (if rid ∈ robots.map Robot.id then robots.map Robot.id
        else robots.map Robot.id ++ [rid]) ∧
    ((register_robot robots rid brand).1.map Robot.id).Nodup ∧
    find_robot (register_robot robots rid brand).1 rid =
      some { id := rid, brand := brand, status := .IDLE,
             reach_radius := calculate_reach_radius brand,
             pos := origin_position, path := none } := by
  have hany : robots.any (fun r => r.id = rid) = true ↔
      rid ∈ robots.map Robot.id := by
    rw [List.any_eq_true]
    constructor
    · rintro ⟨x, hx, hid⟩
      exact List.mem_map.mpr ⟨x, hx, by simpa using hid⟩
    · intro hm
      rcases List.mem_map.mp hm with ⟨x, hx, hid⟩
      exact ⟨x, hx, by simpa using hid⟩
  by_cases hmem : rid ∈ robots.map Robot.id
  · have hred : register_robot robots rid brand =
        (robots.map (fun r =>
          if r.id = rid then
            { id := rid, brand := brand, status := .IDLE,
              reach_radius := calculate_reach_radius brand,
              pos := origin_position, path := none }
          else r), true) := by
      unfold register_robot
      rw [if_pos (hany.mpr hmem)]
    rw [hred, if_pos hmem]
    refine ⟨rfl, ?_, ?_, ?_⟩
    · exact map_id_overwrite robots rid _ rfl
    · rw [map_id_overwrite robots rid _ rfl]
      exact h
    · exact find_robot_overwrite robots rid _ rfl hmem
  · have hred : register_robot robots rid brand =
        (robots ++
          [{ id := rid, brand := brand, status := .IDLE,
             reach_radius := calculate_reach_radius brand,
             pos := origin_position, path := none }], true) := by
      unfold register_robot
      rw [if_neg (fun hc => hmem (hany.mp hc))]
    rw [hred, if_neg hmem]
    refine ⟨rfl, by simp, ?_, ?_⟩
    · simp only [List.map_append, List.map_cons, List.map_nil]
      rw [List.nodup_append]
      refine ⟨h, List.nodup_singleton _, ?_⟩
      intro a ha hb
      simp only [List.mem_singleton] at hb
      subst hb
      exact hmem ha
    · unfold find_robot
      rw [List.find?_append]
      have hnone : robots.find? (fun r => r.id = rid) = none := by
        rw [List.find?_eq_none]
        intro x hx
        simp only [decide_eq_true_eq]
        intro hid
        exact hmem (List.mem_map.mpr ⟨x, hx, hid⟩)
      rw [hnone]
      simp

/-- Witness for C6 (amended) at the one-robot registry with a duplicate id. -/
theorem register_robot_spec_witness :
    ([dup_robot].map Robot.id).Nodup ∧
    ((register_robot [dup_robot] 1 .YASKAWA).2 = true ∧
    (register_robot [dup_robot] 1 .YASKAWA).1.map Robot.id =
      (if 1 ∈ [dup_robot].map Robot.id then [dup_robot].map Robot.id
        else [dup_robot].map Robot.id ++ [1]) ∧
    (((register_robot [dup_robot] 1 .YASKAWA).1.map Robot.id).Nodup) ∧
    find_robot (register_robot [dup_robot] 1 .YASKAWA).1 1 =
      some { id := 1, brand := .YASKAWA, status := .IDLE,
             reach_radius := calculate_reach_radius .YASKAWA,
             pos := origin_position, path := none }) :=
  ⟨by simp, register_robot_spec [dup_robot] 1 .YASKAWA (by simp)⟩

/-- The time-from-start sequence produced by `_generate_safe_path`:
point `i` of 10 sits at `(i/9) * 2` seconds. -/
theorem generate_safe_path_times (pos : RobotPosition) (rid prio : ℕ)
    (now : ℚ) :
    (generate_safe_path pos rid prio now).points.map
        (fun pt => pt.time_from_start) =
      [0, 2/9, 4/9, 6/9, 8/9, 10/9, 12/9, 14/9, 16/9, 2] := by
  have hrange : List.range 10 = [0, 1, 2, 3, 4, 5, 6, 7, 8, 9] := rfl
  simp only [generate_safe_path, hrange, List.map_cons, List.map_nil]
  norm_num

/-- C7: the PathPoints of every generated RobotPath have strictly increasing
time-from-start values, starting at t = 0 and ending at the path's total
duration (2.0s); and a delay adjustment shifts the start time and every
point time by the same delay, preserving strict monotonicity. -/
theorem path_times_strictly_increasing (pos : RobotPosition) (rid prio : ℕ)
    (now delay : ℚ) :
    List.Chain' (· < ·)
      ((generate_safe_path pos rid prio now).points.map
        (fun pt => pt.time_from_start)) ∧
    ((generate_safe_path pos rid prio now).points.map
      (fun pt => pt.time_from_start)).head? = some 0 ∧
    ((generate_safe_path pos rid prio now).points.map
      (fun pt => pt.time_from_start)).getLast? =
      some (generate_safe_path pos rid prio now).total_duration ∧
    delay_robot_start (some (generate_safe_path pos rid prio now)) delay =
      some (shift_path (generate_safe_path pos rid prio now) delay) ∧
    List.Chain' (· < ·)
      ((shift_path (generate_safe_path pos rid prio now) delay).points.map
        (fun pt => pt.time_from_start)) := by
  have htimes := generate_safe_path_times pos rid prio now
  refine ⟨?_, ?_, ?_, rfl, ?_⟩
  · rw [htimes]
    norm_num [List.chain'_cons]
  · rw [htimes]
    rfl
  · rw [htimes]
    rfl
  · have hshift : (shift_path (generate_safe_path pos rid prio now)
        delay).points.map (fun pt => pt.time_from_start) =
        ((generate_safe_path pos rid prio now).points.map
          (fun pt => pt.time_from_start)).map (fun t => t + delay) := by
      simp [shift_path, List.map_map]
    rw [hshift, htimes]
    norm_num [List.chain'_cons]

/-- C3: the zone classification satisfies, for every risk value:
CRITICAL iff r ≥ 0.8, DANGER iff 0.5 ≤ r < 0.8, WARNING iff 0.2 ≤ r < 0.5,
SAFE iff r < 0.2 — each boundary 0.2/0.5/0.8 classified into the higher zone
(proved for all rationals, hence in particular on [0,1]). -/
theorem classify_collision_zone_spec (r : ℚ) :
    (classify_collision_zone r = .CRITICAL ↔ 8/10 ≤ r) ∧
    (classify_collision_zone r = .DANGER ↔ 5/10 ≤ r ∧ r < 8/10) ∧
    (classify_collision_zone r = .WARNING ↔ 2/10 ≤ r ∧ r < 5/10) ∧
    (classify_collision_zone r = .SAFE ↔ r < 2/10) := by
  unfold classify_collision_zone
  rcases le_or_lt (8/10 : ℚ) r with h8 | h8 <;>
    rcases le_or_lt (5/10 : ℚ) r with h5 | h5 <;>
      rcases le_or_lt (2/10 : ℚ) r with h2 | h2 <;>
        simp [ge_iff_le, h8, h5, h2, not_le.mpr] <;> linarith

/-- Path writes preserve ids, so `find_robot` finds the same entry,
path-updated when targeted. -/
theorem find_robot_set_path_some (robots : List Robot) (rid rid2 : ℕ)
    (p : RobotPath) (r : Robot) (h : find_robot robots rid = some r) :
    find_robot (set_path robots rid2 p) rid =
      some (if r.id = rid2 then { r with path := some p } else r) := by
  induction robots with
  | nil => simp [find_robot] at h
  | cons a rs ih =>
    unfold find_robot set_path at *
    simp only [List.map_cons]
    by_cases h1 : a.id = rid
    · rw [List.find?_cons_of_pos _ (by simp [h1])] at h
      rw [List.find?_cons_of_pos]
      · cases h
        rfl
      · by_cases h2 : a.id = rid2
        · rw [if_pos h2]
          simp [h1]
        · rw [if_neg h2]
          simp [h1]
    · rw [List.find?_cons_of_neg _ (by simp [h1])] at h
      rw [List.find?_cons_of_neg]
      · exact ih h
      · by_cases h2 : a.id = rid2
        · rw [if_pos h2]
          simp [h1]
        · rw [if_neg h2]
          simp [h1]

/-- A robot absent from the registry stays absent after a path write. -/
theorem find_robot_set_path_none (robots : List Robot) (rid rid2 : ℕ)
    (p : RobotPath) (h : find_robot robots rid = none) :
    find_robot (set_path robots rid2 p) rid = none := by
  induction robots with
  | nil => rfl
  | cons a rs ih =>
    unfold find_robot set_path at *
    simp only [List.map_cons]
    by_cases h1 : a.id = rid
    · rw [List.find?_cons_of_pos _ (by simp [h1])] at h
      exact absurd h (by simp)
    · rw [List.find?_cons_of_neg _ (by simp [h1])] at h
      rw [List.find?_cons_of_neg]
      · exact ih h
      · by_cases h2 : a.id = rid2
        · rw [if_pos h2]
          simp [h1]
        · rw [if_neg h2]
          simp [h1]

/-- Writing a registered robot's path makes `robot_path_of` report it. -/
theorem robot_path_of_set_path_self (robots : List Robot) (rid : ℕ)
    (p : RobotPath) (r : Robot) (h : find_robot robots rid = some r) :
    robot_path_of (set_path robots rid p) rid = some p := by
  have hid : r.id = rid := by simpa using List.find?_some h
  unfold robot_path_of
  rw [find_robot_set_path_some _ _ _ _ _ h, if_pos hid]
  rfl

/-- Writing another robot's path leaves a robot's path unchanged. -/
theorem robot_path_of_set_path_other (robots : List Robot) (rid rid2 : ℕ)
    (p : RobotPath) (h : rid ≠ rid2) :
    robot_path_of (set_path robots rid2 p) rid = robot_path_of robots rid := by
  unfold robot_path_of
  cases hf : find_robot robots rid with
  | none => rw [find_robot_set_path_none _ _ _ _ hf]
  | some r =>
    have hid : r.id = rid := by simpa using List.find?_some hf
    rw [find_robot_set_path_some _ _ _ _ _ hf,
      if_neg (by rw [hid]; exact h)]

/-- Path writes never change statuses. -/
theorem robot_status_set_path (robots : List Robot) (rid rid2 : ℕ)
    (p : RobotPath) :
    robot_status (set_path robots rid2 p) rid = robot_status robots rid := by
  unfold robot_status
  cases hf : find_robot robots rid with
  | none => rw [find_robot_set_path_none _ _ _ _ hf]
  | some r =>
    rw [find_robot_set_path_some _ _ _ _ _ hf]
    by_cases h2 : r.id = rid2
    · rw [if_pos h2]
      rfl
    · rw [if_neg h2]

/-- Path writes preserve which ids are registered. -/
theorem find_robot_set_path_isSome (robots : List Robot) (rid rid2 : ℕ)
    (p : RobotPath) :
    (find_robot (set_path robots rid2 p) rid).isSome =
      (find_robot robots rid).isSome := by
  cases hf : find_robot robots rid with
  | none => rw [find_robot_set_path_none _ _ _ _ hf]
  | some r =>
    rw [find_robot_set_path_some _ _ _ _ _ hf]
    rfl

/-- Status writes never change paths. -/
theorem robot_path_of_set_status (robots : List Robot) (rid rid2 : ℕ)
    (st : RobotStatus) :
    robot_path_of (set_status robots rid2 st) rid =
      robot_path_of robots rid := by
  unfold robot_path_of
  cases hf : find_robot robots rid with
  | none => rw [find_robot_set_status_none _ _ _ _ hf]
  | some r =>
    rw [find_robot_set_status_some _ _ _ _ _ hf]
    by_cases h2 : r.id = rid2
    · rw [if_pos h2]
      rfl
    · rw [if_neg h2]

/-- Status writes preserve which ids are registered. -/
theorem find_robot_set_status_isSome (robots : List Robot) (rid rid2 : ℕ)
    (st : RobotStatus) :
    (find_robot (set_status robots rid2 st) rid).isSome =
      (find_robot robots rid).isSome := by
  cases hf : find_robot robots rid with
  | none => rw [find_robot_set_status_none _ _ _ _ hf]
  | some r =>
    rw [find_robot_set_status_some _ _ _ _ _ hf]
    rfl

/-- Status writes preserve positions (under lookup). -/
theorem find_robot_set_status_pos (robots : List Robot) (rid rid2 : ℕ)
    (st : RobotStatus) :
    (find_robot (set_status robots rid2 st) rid).map Robot.pos =
      (find_robot robots rid).map Robot.pos := by
  cases hf : find_robot robots rid with
  | none => rw [find_robot_set_status_none _ _ _ _ hf]
  | some r =>
    rw [find_robot_set_status_some _ _ _ _ _ hf]
    by_cases h2 : r.id = rid2
    · rw [if_pos h2]
      rfl
    · rw [if_neg h2]

/-- The coordinated-status loop preserves positions (under lookup). -/
theorem find_robot_set_coordinated_pos (ids : List ℕ) :
    ∀ (robots : List Robot) (rid : ℕ),
      (find_robot (set_coordinated robots ids) rid).map Robot.pos =
        (find_robot robots rid).map Robot.pos := by
  induction ids with
  | nil =>
    intro robots rid
    rfl
  | cons a rest ih =>
    intro robots rid
    show (find_robot (set_coordinated
      (if robots.any (fun r => r.id = a) = true then
        set_status robots a .COORDINATED else robots) rest) rid).map
        Robot.pos = _
    rw [ih]
    by_cases hc : robots.any (fun r => r.id = a) = true
    · rw [if_pos hc]
      exact find_robot_set_status_pos _ _ _ _
    · rw [if_neg hc]

/-- The coordinated-status loop preserves paths. -/
theorem robot_path_of_set_coordinated (ids : List ℕ) :
    ∀ (robots : List Robot) (rid : ℕ),
      robot_path_of (set_coordinated robots ids) rid =
        robot_path_of robots rid := by
  induction ids with
  | nil =>
    intro robots rid
    rfl
  | cons a rest ih =>
    intro robots rid
    show robot_path_of (set_coordinated
      (if robots.any (fun r => r.id = a) = true then
        set_status robots a .COORDINATED else robots) rest) rid = _
    rw [ih]
    by_cases hc : robots.any (fun r => r.id = a) = true
    · rw [if_pos hc]
      exact robot_path_of_set_status _ _ _ _
    · rw [if_neg hc]

/-- The coordinated-status loop preserves priorities. -/
theorem get_robot_priority_set_coordinated (ids : List ℕ) :
    ∀ (robots : List Robot) (rid : ℕ),
      get_robot_priority (set_coordinated robots ids) rid =
        get_robot_priority robots rid := by
  induction ids with
  | nil =>
    intro robots rid
    rfl
  | cons a rest ih =>
    intro robots rid
    show get_robot_priority (set_coordinated
      (if robots.any (fun r => r.id = a) = true then
        set_status robots a .COORDINATED else robots) rest) rid = _
    rw [ih]
    by_cases hc : robots.any (fun r => r.id = a) = true
    · rw [if_pos hc]
      exact get_robot_priority_set_status _ _ _ _
    · rw [if_neg hc]

/-- The coordinated-status loop preserves which ids are registered. -/
theorem find_robot_set_coordinated_isSome (ids : List ℕ) :
    ∀ (robots : List Robot) (rid : ℕ),
      (find_robot (set_coordinated robots ids) rid).isSome =
        (find_robot robots rid).isSome := by
  induction ids with
  | nil =>
    intro robots rid
    rfl
  | cons a rest ih =>
    intro robots rid
    show (find_robot (set_coordinated
      (if robots.any (fun r => r.id = a) = true then
        set_status robots a .COORDINATED else robots) rest) rid).isSome = _
    rw [ih]
    by_cases hc : robots.any (fun r => r.id = a) = true
    · rw [if_pos hc]
      exact find_robot_set_status_isSome _ _ _ _
    · rw [if_neg hc]

/-- A robot already COORDINATED stays COORDINATED through the loop. -/
theorem robot_status_set_coordinated_keep (ids : List ℕ) :
    ∀ (robots : List Robot) (rid : ℕ),
      robot_status robots rid = some .COORDINATED →
      robot_status (set_coordinated robots ids) rid =
        some .COORDINATED := by
  induction ids with
  | nil =>
    intro robots rid h
    exact h
  | cons a rest ih =>
    intro robots rid h
    show robot_status (set_coordinated
      (if robots.any (fun r => r.id = a) = true then
        set_status robots a .COORDINATED else robots) rest) rid = _
    by_cases hc : robots.any (fun r => r.id = a) = true
    · rw [if_pos hc]
      apply ih
      rcases robot_status_set_status_rev robots rid a .COORDINATED
        with he | he
      · rw [he]
        exact h
      · exact he
    · rw [if_neg hc]
      exact ih _ _ h

/-- Every listed registered robot ends the loop COORDINATED. -/
theorem robot_status_set_coordinated_mem (ids : List ℕ) :
    ∀ (robots : List Robot) (rid : ℕ) (r : Robot), rid ∈ ids →
      find_robot robots rid = some r →
      robot_status (set_coordinated robots ids) rid =
        some .COORDINATED := by
  induction ids with
  | nil =>
    intro robots rid r h _
    simp at h
  | cons a rest ih =>
    intro robots rid r hmem hf
    show robot_status (set_coordinated
      (if robots.any (fun x => x.id = a) = true then
        set_status robots a .COORDINATED else robots) rest) rid = _
    by_cases heq : rid = a
    · subst heq
      have hc : robots.any (fun x => x.id = rid) = true := by
        rw [List.any_eq_true]
        exact ⟨r, List.mem_of_find?_eq_some hf,
          by simpa using List.find?_some hf⟩
      rw [if_pos hc]
      apply robot_status_set_coordinated_keep
      exact robot_status_set_status_self _ _ _ _ hf
    · have hmem2 : rid ∈ rest := by
        rcases List.mem_cons.mp hmem with h | h
        · exact absurd h heq
        · exact h
      by_cases hc : robots.any (fun x => x.id = a) = true
      · rw [if_pos hc]
        exact ih _ _ _ hmem2 (find_robot_set_status_some _ _ _ _ _ hf)
      · rw [if_neg hc]
        exact ih _ _ _ hmem2 hf

/-- Unfolding equation for `generate_coordinated_paths` on the empty list. -/
theorem generate_coordinated_paths_nil (robots : List Robot) (now : ℚ)
    (k : ℕ) : generate_coordinated_paths robots now k [] = some [] := rfl

/-- Unfolding equation for `generate_coordinated_paths` on a cons. -/
theorem generate_coordinated_paths_cons (robots : List Robot) (now : ℚ)
    (k a : ℕ) (rest : List ℕ) :
    generate_coordinated_paths robots now k (a :: rest) =
      match find_robot robots a with
      | none => none
      | some r =>
        match generate_coordinated_paths robots now (k + 1) rest with
        | none => none
        | some ps => some ((a, shift_path
            (generate_safe_path r.pos a (get_robot_priority robots a) now)
            ((k : ℚ) * 2)) :: ps) := rfl

/-- An unregistered id anywhere in the list aborts coordinated path
generation with no paths at all (the Python `KeyError`). -/
theorem generate_coordinated_paths_fail (robots : List Robot) (now : ℚ) :
    ∀ (ids : List ℕ) (k : ℕ),
      (∃ rid ∈ ids, find_robot robots rid = none) →
      generate_coordinated_paths robots now k ids = none := by
  intro ids
  induction ids with
  | nil =>
    intro k h
    rcases h with ⟨rid, hmem, _⟩
    simp at hmem
  | cons a rest ih =>
    intro k h
    rw [generate_coordinated_paths_cons]
    cases hf : find_robot robots a with
    | none => rfl
    | some r =>
      have hrest : ∃ rid ∈ rest, find_robot robots rid = none := by
        rcases h with ⟨rid, hmem, hnone⟩
        rcases List.mem_cons.mp hmem with he | he
        · subst he
          rw [hf] at hnone
          exact absurd hnone (by simp)
        · exact ⟨rid, he, hnone⟩
      rw [ih (k + 1) hrest]

/-- When every listed id is registered, coordinated path generation succeeds
and the `i`-th entry is the `i`-th id's safe path shifted by `(k+i)*2`
seconds. -/
theorem generate_coordinated_paths_sound (robots : List Robot) (now : ℚ) :
    ∀ (ids : List ℕ) (k : ℕ),
      (∀ rid ∈ ids, (find_robot robots rid).isSome = true) →
      ∃ ps, generate_coordinated_paths robots now k ids = some ps ∧
        ps.map Prod.fst = ids ∧
        ∀ (i rid : ℕ) (r : Robot), ids.get? i = some rid →
          find_robot robots rid = some r →
          ps.get? i = some (rid, shift_path
            (generate_safe_path r.pos rid (get_robot_priority robots rid)
              now) (((k + i : ℕ) : ℚ) * 2)) := by
  intro ids
  induction ids with
  | nil =>
    intro k _
    exact ⟨[], rfl, rfl, fun i rid r h _ => by simp at h⟩
  | cons a rest ih =>
    intro k hreg
    have ha : (find_robot robots a).isSome = true :=
      hreg a (List.mem_cons_self _ _)
    cases hf : find_robot robots a with
    | none =>
      rw [hf] at ha
      simp at ha
    | some r0 =>
      rcases ih (k + 1) (fun rid h => hreg rid (List.mem_cons_of_mem _ h))
        with ⟨ps, hgen, hfst, hentries⟩
      refine ⟨(a, shift_path (generate_safe_path r0.pos a
        (get_robot_priority robots a) now) ((k : ℚ) * 2)) :: ps, ?_, ?_, ?_⟩
      · rw [generate_coordinated_paths_cons, hf, hgen]
      · simp only [List.map_cons, hfst]
      · intro i rid r hget hfind
        cases i with
        | zero =>
          have hrid : a = rid := Option.some.inj hget
          subst hrid
          have hr : r = r0 := Option.some.inj (hfind.symm.trans hf)
          subst hr
          rfl
        | succ i =>
          have hget2 : rest.get? i = some rid := hget
          have hent := hentries i rid r hget2 hfind
          have harith : k + 1 + i = k + (i + 1) := by omega
          show ps.get? i = _
          rw [hent, harith]

/-- Publishing paths never changes statuses. -/
theorem robot_status_publish (paths : List (ℕ × RobotPath)) :
    ∀ (robots : List Robot) (rid : ℕ),
      robot_status (publish_paths robots paths) rid =
        robot_status robots rid := by
  induction paths with
  | nil =>
    intro robots rid
    rfl
  | cons q rest ih =>
    intro robots rid
    show robot_status (publish_paths (set_path robots q.1 q.2) rest) rid = _
    rw [ih, robot_status_set_path]

/-- Publishing paths for other ids leaves a robot's path unchanged. -/
theorem robot_path_of_publish_not_mem (paths : List (ℕ × RobotPath)) :
    ∀ (robots : List Robot) (rid : ℕ), rid ∉ paths.map Prod.fst →
      robot_path_of (publish_paths robots paths) rid =
        robot_path_of robots rid := by
  induction paths with
  | nil =>
    intro robots rid _
    rfl
  | cons q rest ih =>
    intro robots rid h
    simp only [List.map_cons, List.mem_cons] at h
    push_neg at h
    show robot_path_of (publish_paths (set_path robots q.1 q.2) rest) rid = _
    rw [ih _ _ h.2, robot_path_of_set_path_other _ _ _ _ h.1]

/-- With no duplicate target ids, each registered robot in the publish list
ends with exactly its listed path. -/
theorem robot_path_of_publish_mem (paths : List (ℕ × RobotPath)) :
    ∀ (robots : List Robot) (rid : ℕ) (p : RobotPath),
      (rid, p) ∈ paths → (paths.map Prod.fst).Nodup →
      (find_robot robots rid).isSome = true →
      robot_path_of (publish_paths robots paths) rid = some p := by
  induction paths with
  | nil =>
    intro robots rid p h _ _
    simp at h
  | cons q rest ih =>
    intro robots rid p hmem hnd hreg
    obtain ⟨qid, qp⟩ := q
    simp only [List.map_cons, List.nodup_cons] at hnd
    rcases List.mem_cons.mp hmem with he | he
    · have h1 : rid = qid := congrArg Prod.fst he
      have h2 : p = qp := congrArg Prod.snd he
      subst h1
      subst h2
      show robot_path_of (publish_paths (set_path robots rid p) rest) rid =
        some p
      rw [robot_path_of_publish_not_mem rest _ _ hnd.1]
      cases hf : find_robot robots rid with
      | none =>
        rw [hf] at hreg
        simp at hreg
      | some r => exact robot_path_of_set_path_self _ _ _ _ hf
    · have hne : rid ≠ qid := by
        intro hcontra
        apply hnd.1
        rw [← hcontra]
        exact List.mem_map.mpr ⟨(rid, p), he, rfl⟩
      show robot_path_of (publish_paths (set_path robots qid qp) rest) rid =
        some p
      apply ih
      · exact he
      · exact hnd.2
      · rw [find_robot_set_path_isSome]
        exact hreg

/-- C8: `coordinate_robots` on all-registered, duplicate-free ids returns
True, marks every listed robot COORDINATED, and publishes one path per robot
— the `i`-th robot's path is its safe path shifted by `i*2` seconds, so its
start time is `now + i*2` (0s, 2s, 4s, ... in list order). -/
theorem coordinate_robots_spec (robots : List Robot) (ids : List ℕ)
    (now : ℚ) (hnd : ids.Nodup)
    (hreg : ∀ rid ∈ ids, (find_robot robots rid).isSome = true) :
    (coordinate_robots robots ids now).2 = true ∧
    (∀ rid ∈ ids, robot_status (coordinate_robots robots ids now).1 rid =
      some .COORDINATED) ∧
    (∀ (i rid : ℕ) (r : Robot), ids.get? i = some rid →
      find_robot robots rid = some r →
      robot_path_of (coordinate_robots robots ids now).1 rid =
        some (shift_path (generate_safe_path r.pos rid
          (get_robot_priority robots rid) now) ((i : ℚ) * 2)) ∧
      (shift_path (generate_safe_path r.pos rid
        (get_robot_priority robots rid) now) ((i : ℚ) * 2)).start_time =
        now + (i : ℚ) * 2) := by
  have hreg1 : ∀ rid ∈ ids,
      (find_robot (set_coordinated robots ids) rid).isSome = true :=
    fun rid h => by
      rw [find_robot_set_coordinated_isSome]
      exact hreg rid h
  rcases generate_coordinated_paths_sound (set_coordinated robots ids) now
    ids 0 hreg1 with ⟨ps, hgen, hfst, hentries⟩
  have hcoord : coordinate_robots robots ids now =
      (publish_paths (set_coordinated robots ids) ps, true) := by
    unfold coordinate_robots
    show (match generate_coordinated_paths (set_coordinated robots ids) now
        0 ids with
      | some ps => (publish_paths (set_coordinated robots ids) ps, true)
      | none => (set_coordinated robots ids, false)) = _
    rw [hgen]
  rw [hcoord]
  refine ⟨rfl, ?_, ?_⟩
  · intro rid hm
    rw [robot_status_publish]
    cases hf : find_robot robots rid with
    | none =>
      have := hreg rid hm
      rw [hf] at this
      simp at this
    | some r => exact robot_status_set_coordinated_mem ids robots rid r hm hf
  · intro i rid r hget hfind
    have hpos := find_robot_set_coordinated_pos ids robots rid
    have hprio := get_robot_priority_set_coordinated ids robots rid
    have hsome : (find_robot (set_coordinated robots ids) rid).isSome =
        true := by
      rw [find_robot_set_coordinated_isSome, hfind]
      rfl
    cases hf1 : find_robot (set_coordinated robots ids) rid with
    | none =>
      rw [hf1] at hsome
      simp at hsome
    | some r1 =>
      have hrpos : r1.pos = r.pos := by
        rw [hf1, hfind] at hpos
        exact Option.some.inj hpos
      have hent := hentries i rid r1 hget hf1
      rw [hrpos, hprio] at hent
      have harith : ((0 + i : ℕ) : ℚ) = (i : ℚ) := by norm_num
      rw [harith] at hent
      refine ⟨?_, rfl⟩
      apply robot_path_of_publish_mem
      · exact List.get?_mem hent
      · rw [hfst]
        exact hnd
      · exact hsome

/-- C10: if any listed id is unregistered, `coordinate_robots` returns False
and publishes no paths for any robot, but the call is NOT atomic: every
registered listed robot has already been marked COORDINATED and is not
rolled back. -/
theorem coordinate_robots_not_atomic (robots : List Robot) (ids : List ℕ)
    (now : ℚ) (h : ∃ rid ∈ ids, find_robot robots rid = none) :
    (coordinate_robots robots ids now).2 = false ∧
    (∀ rid, robot_path_of (coordinate_robots robots ids now).1 rid =
      robot_path_of robots rid) ∧
    (∀ rid ∈ ids, ∀ r : Robot, find_robot robots rid = some r →
      robot_status (coordinate_robots robots ids now).1 rid =
        some .COORDINATED) := by
  have hfail : generate_coordinated_paths (set_coordinated robots ids) now
      0 ids = none := by
    apply generate_coordinated_paths_fail
    rcases h with ⟨rid, hm, hn⟩
    refine ⟨rid, hm, ?_⟩
    have hiso := find_robot_set_coordinated_isSome ids robots rid
    rw [hn] at hiso
    cases hf1 : find_robot (set_coordinated robots ids) rid with
    | none => rfl
    | some r =>
      rw [hf1] at hiso
      simp at hiso
  have hcoord : coordinate_robots robots ids now =
      (set_coordinated robots ids, false) := by
    unfold coordinate_robots
    show (match generate_coordinated_paths (set_coordinated robots ids) now
        0 ids with
      | some ps => (publish_paths (set_coordinated robots ids) ps, true)
      | none => (set_coordinated robots ids, false)) = _
    rw [hfail]
  rw [hcoord]
  refine ⟨rfl, ?_, ?_⟩
  · intro rid
    exact robot_path_of_set_coordinated ids robots rid
  · intro rid hm r hf
    exact robot_status_set_coordinated_mem ids robots rid r hm hf

/-- Witness for C8 at three registered robots, ids [1, 2, 3], now = 0:
start times come out staggered 0s / 2s / 4s. -/
theorem coordinate_robots_spec_witness :
    ([1, 2, 3] : List ℕ).Nodup ∧
    (∀ rid ∈ ([1, 2, 3] : List ℕ),
      (find_robot [co_robot1, co_robot2, co_robot3] rid).isSome = true) ∧
    ((coordinate_robots [co_robot1, co_robot2, co_robot3] [1, 2, 3] 0).2 =
      true ∧
    (∀ rid ∈ ([1, 2, 3] : List ℕ),
      robot_status
        (coordinate_robots [co_robot1, co_robot2, co_robot3] [1, 2, 3] 0).1
        rid = some .COORDINATED) ∧
    (∀ (i rid : ℕ) (r : Robot), ([1, 2, 3] : List ℕ).get? i = some rid →
      find_robot [co_robot1, co_robot2, co_robot3] rid = some r →
      robot_path_of
        (coordinate_robots [co_robot1, co_robot2, co_robot3] [1, 2, 3] 0).1
        rid =
        some (shift_path (generate_safe_path r.pos rid
          (get_robot_priority [co_robot1, co_robot2, co_robot3] rid) 0)
          ((i : ℚ) * 2)) ∧
      (shift_path (generate_safe_path r.pos rid
        (get_robot_priority [co_robot1, co_robot2, co_robot3] rid) 0)
        ((i : ℚ) * 2)).start_time = 0 + (i : ℚ) * 2)) :=
  ⟨by decide, by decide,
    coordinate_robots_spec [co_robot1, co_robot2, co_robot3] [1, 2, 3] 0
      (by decide) (by decide)⟩

/-- Witness for C10: coordinating ids [1, 99] with only robot 1 registered
returns False, publishes nothing, yet leaves robot 1 COORDINATED. -/
theorem coordinate_robots_not_atomic_witness :
    (∃ rid ∈ ([1, 99] : List ℕ), find_robot [lone_robot] rid = none) ∧
    ((coordinate_robots [lone_robot] [1, 99] 0).2 = false ∧
    (∀ rid, robot_path_of (coordinate_robots [lone_robot] [1, 99] 0).1 rid =
      robot_path_of [lone_robot] rid) ∧
    (∀ rid ∈ ([1, 99] : List ℕ), ∀ r : Robot,
      find_robot [lone_robot] rid = some r →
      robot_status (coordinate_robots [lone_robot] [1, 99] 0).1 rid =
        some .COORDINATED)) :=
  ⟨⟨99, by decide, rfl⟩,
    coordinate_robots_not_atomic [lone_robot] [1, 99] 0 ⟨99, by decide, rfl⟩⟩
